import Mathlib

/-!
Verification of the configuration-acquisition layer of the gorilla agent
(`pkg/config/config.go`): the argument parser `parseArguments` and the
resolver `Get`, shallowly embedded as pure Lean functions.  External
effects (file read, YAML deserialization, environment lookup, path
joining/cleaning, process exit, the report sink) are made explicit:
the outcomes of the effectful steps are inputs, and the exits and the
report-sink writes are recorded in the returned outcome.
-/

namespace Gorilla

/-- `Configuration` mirrors the Go struct of the same name: every field a
config file could contain, plus the computed/pass-through fields. -/
structure Configuration where
  AppDataPath   : String
  AuthPass      : String
  AuthUser      : String
  BuildArg      : Bool
  CachePath     : String
  Catalogs      : List String
  Debug         : Bool
  ImportArg     : String
  Manifest      : String
  RepoPath      : String
  TLSAuth       : Bool
  TLSClientCert : String
  TLSClientKey  : String
  TLSServerCert : String
  URL           : String
  URLPackages   : String
  Verbose       : Bool
  deriving Repr, DecidableEq

/-- The zero value of the Go struct: every string empty, every bool false,
the slice nil. `var cfg Configuration` in `Get` starts from this. -/
def zeroConfiguration : Configuration :=
  { AppDataPath := "", AuthPass := "", AuthUser := "", BuildArg := false
  , CachePath := "", Catalogs := [], Debug := false, ImportArg := ""
  , Manifest := "", RepoPath := "", TLSAuth := false, TLSClientCert := ""
  , TLSClientKey := "", TLSServerCert := "", URL := "", URLPackages := ""
  , Verbose := false }

/-- A value written to the process-wide report sink.
Modelled from the spec: `report.Items` (package `pkg/report`, not in
scope) is a process-wide map accepting named key/value facts; the values
written here are a string (the manifest) and a string list (catalogs). -/
inductive ReportValue where
  | str  (s : String)
  | strs (l : List String)
  deriving Repr, DecidableEq

/-- A diagnostic printed on a fatal path: the fixed message text and the
error value appended to it by `fmt.Println` (`none` models a nil `err`). -/
structure Diagnostic where
  message     : String
  attachedErr : Option String
  deriving Repr, DecidableEq

/-- A fatal termination of `Get`: the `os.Exit` code and the diagnostic
printed just before it. -/
structure GetFailure where
  exitCode : Nat
  diag     : Diagnostic
  deriving Repr, DecidableEq

instance {ε α : Type} [DecidableEq ε] [DecidableEq α] :
    DecidableEq (Except ε α) := fun a b =>
  match a, b with
  | .error e, .error f =>
      if h : e = f then .isTrue (by rw [h]) else .isFalse (by simp [h])
  | .error _, .ok _ => .isFalse (by simp)
  | .ok _, .error _ => .isFalse (by simp)
  | .ok x, .ok y =>
      if h : x = y then .isTrue (by rw [h]) else .isFalse (by simp [h])

/-- The observable outcome of `Get` past argument parsing: either a fatal
exit or the returned `Configuration`, together with the ordered log of
writes made to the report sink during the run. -/
structure GetOutcome where
  result       : Except GetFailure Configuration
  reportWrites : List (String × ReportValue)
  deriving Repr, DecidableEq

/- The fixed diagnostic texts of `Get`, verbatim from the source. -/

def msgUnableRead : String := "Unable to read configuration file: "

def msgUnableYaml : String := "Unable to parse yaml configuration: "

def msgInvalidManifest : String := "Invalid configuration - Manifest: "

def msgInvalidURL : String := "Invalid configuration - URL: "

/- The report-sink keys written on success, verbatim from the source. -/

def keyManifest : String := "Manifest"

def keyCatalog : String := "Catalog"

def keyURL : String := "URL"

/-- `if cfg.URLPackages == "" { cfg.URLPackages = cfg.URL }` -/
def backfillURLPackages (cfg : Configuration) : Configuration :=
  if cfg.URLPackages = "" then { cfg with URLPackages := cfg.URL } else cfg

/-- `if cfg.AppDataPath == "" { cfg.AppDataPath = filepath.Join(os.Getenv("ProgramData"), "gorilla/") } else { cfg.AppDataPath = filepath.Clean(cfg.AppDataPath) }`.
`programData` is the value of the `ProgramData` environment variable;
`joinPath` and `cleanPath` stand for `filepath.Join` and `filepath.Clean`. -/
def resolveAppDataPath (programData : String)
    (joinPath : String → String → String) (cleanPath : String → String)
    (cfg : Configuration) : Configuration :=
  if cfg.AppDataPath = "" then
    { cfg with AppDataPath := joinPath programData "gorilla/" }
  else
    { cfg with AppDataPath := cleanPath cfg.AppDataPath }

/-- `if verbose && !cfg.Verbose { cfg.Verbose = true }` -/
def setVerbosity (verbose : Bool) (cfg : Configuration) : Configuration :=
  if verbose && !cfg.Verbose then { cfg with Verbose := true } else cfg

/-- `if debug && !cfg.Debug { cfg.Debug = true; cfg.Verbose = true }` -/
def setDebug (debug : Bool) (cfg : Configuration) : Configuration :=
  if debug && !cfg.Debug then { cfg with Debug := true, Verbose := true }
  else cfg

/-- `cfg.BuildArg = buildArg; cfg.ImportArg = importArg` -/
def setActionFlags (buildArg : Bool) (importArg : String)
    (cfg : Configuration) : Configuration :=
  { cfg with BuildArg := buildArg, ImportArg := importArg }

/-- `cfg.CachePath = filepath.Join(cfg.AppDataPath, "cache")` -/
def setCachePath (joinPath : String → String → String)
    (cfg : Configuration) : Configuration :=
  { cfg with CachePath := joinPath cfg.AppDataPath "cache" }

/-- The success-path pipeline of `Get`, in source order: backfill
`URLPackages`, resolve `AppDataPath`, merge verbosity, merge debug, copy
the action flags, compute the cache path. -/
def resolvePipeline (programData : String)
    (joinPath : String → String → String) (cleanPath : String → String)
    (verbose debug : Bool) (buildArg : Bool) (importArg : String)
    (cfg : Configuration) : Configuration :=
  setCachePath joinPath
    (setActionFlags buildArg importArg
      (setDebug debug
        (setVerbosity verbose
          (resolveAppDataPath programData joinPath cleanPath
            (backfillURLPackages cfg)))))

/-- The body of `Get` after `parseArguments`, as an explicit pipeline.
`readResult` is the outcome of `ioutil.ReadFile(configPath)`; `unmarshal`
is the outcome of `yaml.Unmarshal` as a function of the file bytes
(`.error e` models a non-nil error, `.ok cfg` a nil error with `cfg` the
populated struct); `verbose` and `debug` are the CLI values returned by
`parseArguments`; `buildArg` and `importArg` are the package-level flag
values copied into the result. Each `os.Exit(1)` branch becomes a
`GetFailure` carrying the printed diagnostic, and the writes into
`report.Items` are logged in `reportWrites`. -/
def getBody (readResult : Except String (List UInt8))
    (unmarshal : List UInt8 → Except String Configuration)
    (programData : String)
    (joinPath : String → String → String) (cleanPath : String → String)
    (verbose debug : Bool)
    (buildArg : Bool) (importArg : String) : GetOutcome :=
  match readResult with
  | .error e =>
      { result := .error ⟨1, ⟨msgUnableRead, some e⟩⟩, reportWrites := [] }
  | .ok configFile =>
    match unmarshal configFile with
    | .error e =>
        { result := .error ⟨1, ⟨msgUnableYaml, some e⟩⟩, reportWrites := [] }
    | .ok cfg =>
      -- here the Go variable `err` holds the nil error of the successful
      -- `yaml.Unmarshal`; both validation diagnostics print it
      let err : Option String := none
      if cfg.Manifest = "" then
        { result := .error ⟨1, ⟨msgInvalidManifest, err⟩⟩, reportWrites := [] }
      else if cfg.URL = "" then
        { result := .error ⟨1, ⟨msgInvalidURL, err⟩⟩, reportWrites := [] }
      else
        let cfg := resolvePipeline programData joinPath cleanPath
          verbose debug buildArg importArg cfg
        { result := .ok cfg
        , reportWrites :=
            [(keyManifest, .str cfg.Manifest), (keyCatalog, .strs cfg.Catalogs)] }

/-- The informational texts `parseArguments` can print before exiting:
`version.Print()`, the `usage` string, `version.PrintFull()`. -/
inductive PrintedText where
  | versionShort
  | usageText
  | versionFull
  deriving Repr, DecidableEq

/-- Outcome of `parseArguments`: either `osExit(0)` after printing the
listed texts, or a normal return of `(configArg, verboseArg, debugArg)`. -/
inductive ParseOutcome where
  | exit (code : Nat) (printed : List PrintedText)
  | ok (configPath : String) (verbose : Bool) (debug : Bool)
  deriving Repr, DecidableEq

/-- `parseArguments`, as a function of the flag values that `flag.Parse`
produced. Checks `helpArg`, then `versionArg`, then `aboutArg`; each is
terminal (prints and exits 0); otherwise returns the three values. -/
def parseArguments (helpArg versionArg aboutArg : Bool)
    (configArg : String) (verboseArg debugArg : Bool) : ParseOutcome :=
  if helpArg then .exit 0 [.versionShort, .usageText]
  else if versionArg then .exit 0 [.versionShort]
  else if aboutArg then .exit 0 [.versionFull]
  else .ok configArg verboseArg debugArg

/-- Full outcome of `Get` including the `parseArguments` step: an early
informational exit (code 0), or the outcome of the resolver body. -/
inductive FullOutcome where
  | earlyExit (code : Nat) (printed : List PrintedText)
  | resolved (o : GetOutcome)
  deriving Repr, DecidableEq

/-- `Get` end to end: runs `parseArguments` first; on its exit path the
configuration file is never read (`readFile` is not consulted), otherwise
the body runs on the file at the returned path. -/
def get (helpArg versionArg aboutArg : Bool)
    (configArg : String) (verboseArg debugArg : Bool)
    (readFile : String → Except String (List UInt8))
    (unmarshal : List UInt8 → Except String Configuration)
    (programData : String)
    (joinPath : String → String → String) (cleanPath : String → String)
    (buildArg : Bool) (importArg : String) : FullOutcome :=
  match parseArguments helpArg versionArg aboutArg configArg verboseArg debugArg with
  | .exit code printed => .earlyExit code printed
  | .ok configPath verbose debug =>
      .resolved (getBody (readFile configPath) unmarshal programData
        joinPath cleanPath verbose debug buildArg importArg)

/-- `headMatches s p`: `p` is a prefix of `s` (on character lists). -/
def headMatches : List Char → List Char → Bool
  | _, [] => true
  | [], _ :: _ => false
  | c :: cs, d :: ds => c = d && headMatches cs ds

/-- `occursIn s p`: `p` occurs as a contiguous run inside `s`. -/
def occursIn : List Char → List Char → Bool
  | [], p => p.isEmpty
  | c :: cs, p => headMatches (c :: cs) p || occursIn cs p

/-- The diagnostic text `msg` mentions the word `key`. -/
def mentions (msg key : String) : Bool :=
  occursIn msg.toList key.toList

/-! ### Projection lemmas for the pipeline stages -/

@[simp]
theorem backfillURLPackages_URLPackages (c : Configuration) :
    (backfillURLPackages c).URLPackages =
      if c.URLPackages = "" then c.URL else c.URLPackages := by
  unfold backfillURLPackages; split <;> simp_all

@[simp]
theorem backfillURLPackages_Manifest (c : Configuration) :
    (backfillURLPackages c).Manifest = c.Manifest := by
  unfold backfillURLPackages; split <;> rfl

@[simp]
theorem backfillURLPackages_URL (c : Configuration) :
    (backfillURLPackages c).URL = c.URL := by
  unfold backfillURLPackages; split <;> rfl

@[simp]
theorem backfillURLPackages_AppDataPath (c : Configuration) :
    (backfillURLPackages c).AppDataPath = c.AppDataPath := by
  unfold backfillURLPackages; split <;> rfl

@[simp]
theorem backfillURLPackages_Verbose (c : Configuration) :
    (backfillURLPackages c).Verbose = c.Verbose := by
  unfold backfillURLPackages; split <;> rfl

@[simp]
theorem backfillURLPackages_Debug (c : Configuration) :
    (backfillURLPackages c).Debug = c.Debug := by
  unfold backfillURLPackages; split <;> rfl

@[simp]
theorem backfillURLPackages_Catalogs (c : Configuration) :
    (backfillURLPackages c).Catalogs = c.Catalogs := by
  unfold backfillURLPackages; split <;> rfl

@[simp]
theorem resolveAppDataPath_AppDataPath (pd : String)
    (j : String → String → String) (cl : String → String)
    (c : Configuration) :
    (resolveAppDataPath pd j cl c).AppDataPath =
      if c.AppDataPath = "" then j pd "gorilla/" else cl c.AppDataPath := by
  unfold resolveAppDataPath; split <;> simp_all

@[simp]
theorem resolveAppDataPath_Manifest (pd : String)
    (j : String → String → String) (cl : String → String)
    (c : Configuration) :
    (resolveAppDataPath pd j cl c).Manifest = c.Manifest := by
  unfold resolveAppDataPath; split <;> rfl

@[simp]
theorem resolveAppDataPath_URL (pd : String)
    (j : String → String → String) (cl : String → String)
    (c : Configuration) :
    (resolveAppDataPath pd j cl c).URL = c.URL := by
  unfold resolveAppDataPath; split <;> rfl

@[simp]
theorem resolveAppDataPath_URLPackages (pd : String)
    (j : String → String → String) (cl : String → String)
    (c : Configuration) :
    (resolveAppDataPath pd j cl c).URLPackages = c.URLPackages := by
  unfold resolveAppDataPath; split <;> rfl

@[simp]
theorem resolveAppDataPath_Verbose (pd : String)
    (j : String → String → String) (cl : String → String)
    (c : Configuration) :
    (resolveAppDataPath pd j cl c).Verbose = c.Verbose := by
  unfold resolveAppDataPath; split <;> rfl

@[simp]
theorem resolveAppDataPath_Debug (pd : String)
    (j : String → String → String) (cl : String → String)
    (c : Configuration) :
    (resolveAppDataPath pd j cl c).Debug = c.Debug := by
  unfold resolveAppDataPath; split <;> rfl

@[simp]
theorem resolveAppDataPath_Catalogs (pd : String)
    (j : String → String → String) (cl : String → String)
    (c : Configuration) :
    (resolveAppDataPath pd j cl c).Catalogs = c.Catalogs := by
  unfold resolveAppDataPath; split <;> rfl

@[simp]
theorem setVerbosity_Verbose (v : Bool) (c : Configuration) :
    (setVerbosity v c).Verbose = (c.Verbose || v) := by
  unfold setVerbosity; cases v <;> cases h : c.Verbose <;> simp [h]

@[simp]
theorem setVerbosity_Debug (v : Bool) (c : Configuration) :
    (setVerbosity v c).Debug = c.Debug := by
  unfold setVerbosity; split <;> rfl

@[simp]
theorem setVerbosity_Manifest (v : Bool) (c : Configuration) :
    (setVerbosity v c).Manifest = c.Manifest := by
  unfold setVerbosity; split <;> rfl

@[simp]
theorem setVerbosity_URL (v : Bool) (c : Configuration) :
    (setVerbosity v c).URL = c.URL := by
  unfold setVerbosity; split <;> rfl

@[simp]
theorem setVerbosity_URLPackages (v : Bool) (c : Configuration) :
    (setVerbosity v c).URLPackages = c.URLPackages := by
  unfold setVerbosity; split <;> rfl

@[simp]
theorem setVerbosity_AppDataPath (v : Bool) (c : Configuration) :
    (setVerbosity v c).AppDataPath = c.AppDataPath := by
  unfold setVerbosity; split <;> rfl

@[simp]
theorem setVerbosity_Catalogs (v : Bool) (c : Configuration) :
    (setVerbosity v c).Catalogs = c.Catalogs := by
  unfold setVerbosity; split <;> rfl

@[simp]
theorem setDebug_Debug (d : Bool) (c : Configuration) :
    (setDebug d c).Debug = (c.Debug || d) := by
  unfold setDebug; cases d <;> cases h : c.Debug <;> simp [h]

@[simp]
theorem setDebug_Verbose (d : Bool) (c : Configuration) :
    (setDebug d c).Verbose =
      if d && !c.Debug then true else c.Verbose := by
  unfold setDebug; split <;> simp_all

@[simp]
theorem setDebug_Manifest (d : Bool) (c : Configuration) :
    (setDebug d c).Manifest = c.Manifest := by
  unfold setDebug; split <;> rfl

@[simp]
theorem setDebug_URL (d : Bool) (c : Configuration) :
    (setDebug d c).URL = c.URL := by
  unfold setDebug; split <;> rfl

@[simp]
theorem setDebug_URLPackages (d : Bool) (c : Configuration) :
    (setDebug d c).URLPackages = c.URLPackages := by
  unfold setDebug; split <;> rfl

@[simp]
theorem setDebug_AppDataPath (d : Bool) (c : Configuration) :
    (setDebug d c).AppDataPath = c.AppDataPath := by
  unfold setDebug; split <;> rfl

@[simp]
theorem setDebug_Catalogs (d : Bool) (c : Configuration) :
    (setDebug d c).Catalogs = c.Catalogs := by
  unfold setDebug; split <;> rfl

@[simp]
theorem setActionFlags_Manifest (b : Bool) (i : String) (c : Configuration) :
    (setActionFlags b i c).Manifest = c.Manifest := rfl

@[simp]
theorem setActionFlags_URL (b : Bool) (i : String) (c : Configuration) :
    (setActionFlags b i c).URL = c.URL := rfl

@[simp]
theorem setActionFlags_URLPackages (b : Bool) (i : String) (c : Configuration) :
    (setActionFlags b i c).URLPackages = c.URLPackages := rfl

@[simp]
theorem setActionFlags_AppDataPath (b : Bool) (i : String) (c : Configuration) :
    (setActionFlags b i c).AppDataPath = c.AppDataPath := rfl

@[simp]
theorem setActionFlags_Verbose (b : Bool) (i : String) (c : Configuration) :
    (setActionFlags b i c).Verbose = c.Verbose := rfl

@[simp]
theorem setActionFlags_Debug (b : Bool) (i : String) (c : Configuration) :
    (setActionFlags b i c).Debug = c.Debug := rfl

@[simp]
theorem setActionFlags_Catalogs (b : Bool) (i : String) (c : Configuration) :
    (setActionFlags b i c).Catalogs = c.Catalogs := rfl

@[simp]
theorem setCachePath_CachePath (j : String → String → String)
    (c : Configuration) :
    (setCachePath j c).CachePath = j c.AppDataPath "cache" := rfl

@[simp]
theorem setCachePath_AppDataPath (j : String → String → String)
    (c : Configuration) :
    (setCachePath j c).AppDataPath = c.AppDataPath := rfl

@[simp]
theorem setCachePath_Manifest (j : String → String → String)
    (c : Configuration) :
    (setCachePath j c).Manifest = c.Manifest := rfl

@[simp]
theorem setCachePath_URL (j : String → String → String)
    (c : Configuration) :
    (setCachePath j c).URL = c.URL := rfl

@[simp]
theorem setCachePath_URLPackages (j : String → String → String)
    (c : Configuration) :
    (setCachePath j c).URLPackages = c.URLPackages := rfl

@[simp]
theorem setCachePath_Verbose (j : String → String → String)
    (c : Configuration) :
    (setCachePath j c).Verbose = c.Verbose := rfl

@[simp]
theorem setCachePath_Debug (j : String → String → String)
    (c : Configuration) :
    (setCachePath j c).Debug = c.Debug := rfl

@[simp]
theorem setCachePath_Catalogs (j : String → String → String)
    (c : Configuration) :
    (setCachePath j c).Catalogs = c.Catalogs := rfl

/-- On a document that deserializes successfully and passes both
validations, `getBody` returns the pipeline result and writes the two
report facts. -/
theorem getBody_ok (bytes : List UInt8)
    (unmarshal : List UInt8 → Except String Configuration)
    (pd : String) (j : String → String → String) (cl : String → String)
    (v d b : Bool) (i : String) (cfg : Configuration)
    (hun : unmarshal bytes = .ok cfg)
    (hm : cfg.Manifest ≠ "") (hu : cfg.URL ≠ "") :
    getBody (.ok bytes) unmarshal pd j cl v d b i =
      { result := .ok (resolvePipeline pd j cl v d b i cfg)
      , reportWrites :=
          [(keyManifest, .str (resolvePipeline pd j cl v d b i cfg).Manifest),
           (keyCatalog, .strs (resolvePipeline pd j cl v d b i cfg).Catalogs)] } := by
  simp [getBody, hun, hm, hu]

/-! ### Concrete inputs used by witnesses and counterexamples -/

/-- A minimal valid document: the spec scenario
`{manifest: "site_default", url: "https://repo.example.com"}`. -/
def sampleDoc : Configuration :=
  { zeroConfiguration with
      Manifest := "site_default", URL := "https://repo.example.com" }

/-- The sample document with `debug: true` set in the file. -/
def debugOnlyDoc : Configuration := { sampleDoc with Debug := true }

/-- A concrete stand-in for `filepath.Join` in witnesses. -/
def sampleJoin : String → String → String := fun a b => a ++ "/" ++ b

/-- A concrete stand-in for `filepath.Clean` in witnesses. -/
def sampleClean : String → String := fun s => s

/-! ### Claims -/

/-- Claim C1, counterexample: with file `debug: true, verbose: false` and
no CLI overrides, `Get` returns a configuration whose `Debug` is `true`
but whose `Verbose` is `false` — the claimed debug-implies-verbose
invariant fails (the source only forces `Verbose` when the CLI debug
flag is set on a file whose own debug was false). -/
theorem get_fileDebug_without_verbose :
    (getBody (.ok []) (fun _ => .ok debugOnlyDoc) "pd" sampleJoin sampleClean
        false false false "").result =
      .ok (resolvePipeline "pd" sampleJoin sampleClean
        false false false "" debugOnlyDoc)
    ∧ (resolvePipeline "pd" sampleJoin sampleClean
        false false false "" debugOnlyDoc).Debug = true
    ∧ (resolvePipeline "pd" sampleJoin sampleClean
        false false false "" debugOnlyDoc).Verbose = false := by
  refine ⟨?_, by decide, by decide⟩
  exact congrArg GetOutcome.result
    (getBody_ok [] (fun _ => .ok debugOnlyDoc) "pd" sampleJoin sampleClean
      false false false "" debugOnlyDoc rfl (by decide) (by decide))

/-- Claim C1, amended: if the CLI debug override is set and the file's
debug value is false, the returned configuration has both `Debug` and
`Verbose` true; when the file itself sets debug (or sets it alongside the
CLI flag), `Verbose` is not forced. -/
theorem get_cliDebug_forces_verbose (bytes : List UInt8)
    (unmarshal : List UInt8 → Except String Configuration)
    (pd : String) (j : String → String → String) (cl : String → String)
    (v b : Bool) (i : String) (cfg : Configuration)
    (hun : unmarshal bytes = .ok cfg)
    (hm : cfg.Manifest ≠ "") (hu : cfg.URL ≠ "")
    (hd : cfg.Debug = false) :
    (getBody (.ok bytes) unmarshal pd j cl v true b i).result =
      .ok (resolvePipeline pd j cl v true b i cfg)
    ∧ (resolvePipeline pd j cl v true b i cfg).Debug = true
    ∧ (resolvePipeline pd j cl v true b i cfg).Verbose = true := by
  refine ⟨?_, ?_, ?_⟩
  · exact congrArg GetOutcome.result
      (getBody_ok bytes unmarshal pd j cl v true b i cfg hun hm hu)
  · simp [resolvePipeline, hd]
  · simp [resolvePipeline, hd]

/-- Witness for the amended C1 at the sample document (file debug false,
CLI debug set). -/
theorem get_cliDebug_forces_verbose_witness :
    (getBody (.ok []) (fun _ => .ok sampleDoc) "pd" sampleJoin sampleClean
        false true false "").result =
      .ok (resolvePipeline "pd" sampleJoin sampleClean
        false true false "" sampleDoc)
    ∧ (resolvePipeline "pd" sampleJoin sampleClean
        false true false "" sampleDoc).Debug = true
    ∧ (resolvePipeline "pd" sampleJoin sampleClean
        false true false "" sampleDoc).Verbose = true :=
  get_cliDebug_forces_verbose [] (fun _ => .ok sampleDoc) "pd"
    sampleJoin sampleClean false false "" sampleDoc rfl
    (by decide) (by decide) (by decide)

/-- Claim C2: a document that deserializes successfully with non-empty
`manifest` and `url` makes `Get` return normally, and the returned
`Manifest` and `URL` are exactly the deserialized values. -/
theorem get_returns_manifest_url_unchanged (bytes : List UInt8)
    (unmarshal : List UInt8 → Except String Configuration)
    (pd : String) (j : String → String → String) (cl : String → String)
    (v d b : Bool) (i : String) (cfg : Configuration)
    (hun : unmarshal bytes = .ok cfg)
    (hm : cfg.Manifest ≠ "") (hu : cfg.URL ≠ "") :
    (getBody (.ok bytes) unmarshal pd j cl v d b i).result =
      .ok (resolvePipeline pd j cl v d b i cfg)
    ∧ (resolvePipeline pd j cl v d b i cfg).Manifest = cfg.Manifest
    ∧ (resolvePipeline pd j cl v d b i cfg).URL = cfg.URL := by
  refine ⟨?_, ?_, ?_⟩
  · exact congrArg GetOutcome.result
      (getBody_ok bytes unmarshal pd j cl v d b i cfg hun hm hu)
  · simp [resolvePipeline]
  · simp [resolvePipeline]

/-- Witness for C2 at the sample document. -/
theorem get_returns_manifest_url_unchanged_witness :
    (getBody (.ok []) (fun _ => .ok sampleDoc) "pd" sampleJoin sampleClean
        false false false "").result =
      .ok (resolvePipeline "pd" sampleJoin sampleClean
        false false false "" sampleDoc)
    ∧ (resolvePipeline "pd" sampleJoin sampleClean
        false false false "" sampleDoc).Manifest = sampleDoc.Manifest
    ∧ (resolvePipeline "pd" sampleJoin sampleClean
        false false false "" sampleDoc).URL = sampleDoc.URL :=
  get_returns_manifest_url_unchanged [] (fun _ => .ok sampleDoc) "pd"
    sampleJoin sampleClean false false false "" sampleDoc rfl
    (by decide) (by decide)

/-- Claim C3: if the deserialized document has an empty `manifest`, `Get`
terminates with exit code 1 printing a diagnostic mentioning "Manifest",
returning no configuration and writing nothing to the sink; if `manifest`
is present but `url` is empty, likewise with a diagnostic mentioning
"URL". Each failure is diagnosed by its own message. -/
theorem get_missing_field_exit1 (bytes : List UInt8)
    (unmarshal : List UInt8 → Except String Configuration)
    (pd : String) (j : String → String → String) (cl : String → String)
    (v d b : Bool) (i : String) (cfg : Configuration)
    (hun : unmarshal bytes = .ok cfg) :
    (cfg.Manifest = "" →
      getBody (.ok bytes) unmarshal pd j cl v d b i =
        { result := .error ⟨1, ⟨msgInvalidManifest, none⟩⟩
        , reportWrites := [] }
      ∧ mentions msgInvalidManifest keyManifest = true)
    ∧ (cfg.Manifest ≠ "" → cfg.URL = "" →
      getBody (.ok bytes) unmarshal pd j cl v d b i =
        { result := .error ⟨1, ⟨msgInvalidURL, none⟩⟩
        , reportWrites := [] }
      ∧ mentions msgInvalidURL keyURL = true) := by
  constructor
  · intro h
    exact ⟨by simp [getBody, hun, h], by decide⟩
  · intro hm h
    exact ⟨by simp [getBody, hun, hm, h], by decide⟩

/-- Witness for C3: the zero document has an empty manifest, so `Get`
exits 1 with the Manifest diagnostic. -/
theorem get_missing_field_exit1_witness :
    getBody (.ok []) (fun _ => .ok zeroConfiguration) "pd"
        sampleJoin sampleClean false false false "" =
      { result := .error ⟨1, ⟨msgInvalidManifest, none⟩⟩
      , reportWrites := [] }
    ∧ mentions msgInvalidManifest keyManifest = true :=
  (get_missing_field_exit1 [] (fun _ => .ok zeroConfiguration) "pd"
    sampleJoin sampleClean false false false "" zeroConfiguration rfl).1 rfl

/-- Claim C4: when the validated document's `url_packages` is empty, the
returned `URLPackages` equals the returned `URL`; when it is non-empty it
is returned verbatim. -/
theorem get_urlPackages_backfill (bytes : List UInt8)
    (unmarshal : List UInt8 → Except String Configuration)
    (pd : String) (j : String → String → String) (cl : String → String)
    (v d b : Bool) (i : String) (cfg : Configuration)
    (hun : unmarshal bytes = .ok cfg)
    (hm : cfg.Manifest ≠ "") (hu : cfg.URL ≠ "") :
    (getBody (.ok bytes) unmarshal pd j cl v d b i).result =
      .ok (resolvePipeline pd j cl v d b i cfg)
    ∧ (cfg.URLPackages = "" →
        (resolvePipeline pd j cl v d b i cfg).URLPackages =
          (resolvePipeline pd j cl v d b i cfg).URL)
    ∧ (cfg.URLPackages ≠ "" →
        (resolvePipeline pd j cl v d b i cfg).URLPackages =
          cfg.URLPackages) := by
  refine ⟨?_, ?_, ?_⟩
  · exact congrArg GetOutcome.result
      (getBody_ok bytes unmarshal pd j cl v d b i cfg hun hm hu)
  · intro h; simp [resolvePipeline, h]
  · intro h; simp [resolvePipeline, h]

/-- Witness for C4 at the sample document, whose `url_packages` is empty. -/
theorem get_urlPackages_backfill_witness :
    (resolvePipeline "pd" sampleJoin sampleClean
        false false false "" sampleDoc).URLPackages =
      (resolvePipeline "pd" sampleJoin sampleClean
        false false false "" sampleDoc).URL :=
  (get_urlPackages_backfill [] (fun _ => .ok sampleDoc) "pd"
    sampleJoin sampleClean false false false "" sampleDoc rfl
    (by decide) (by decide)).2.1 rfl

/-- Claim C5: when the validated document's `app_data_path` is empty, the
returned `AppDataPath` is the `ProgramData` root joined with `gorilla/`;
otherwise it is the cleaned file value; and the returned `CachePath` is
always the returned `AppDataPath` joined with `cache`. -/
theorem get_appDataPath_default_cache (bytes : List UInt8)
    (unmarshal : List UInt8 → Except String Configuration)
    (pd : String) (j : String → String → String) (cl : String → String)
    (v d b : Bool) (i : String) (cfg : Configuration)
    (hun : unmarshal bytes = .ok cfg)
    (hm : cfg.Manifest ≠ "") (hu : cfg.URL ≠ "") :
    (getBody (.ok bytes) unmarshal pd j cl v d b i).result =
      .ok (resolvePipeline pd j cl v d b i cfg)
    ∧ (cfg.AppDataPath = "" →
        (resolvePipeline pd j cl v d b i cfg).AppDataPath =
          j pd "gorilla/")
    ∧ (cfg.AppDataPath ≠ "" →
        (resolvePipeline pd j cl v d b i cfg).AppDataPath =
          cl cfg.AppDataPath)
    ∧ (resolvePipeline pd j cl v d b i cfg).CachePath =
        j (resolvePipeline pd j cl v d b i cfg).AppDataPath "cache" := by
  refine ⟨?_, ?_, ?_, ?_⟩
  · exact congrArg GetOutcome.result
      (getBody_ok bytes unmarshal pd j cl v d b i cfg hun hm hu)
  · intro h; simp [resolvePipeline, h]
  · intro h; simp [resolvePipeline, h]
  · simp [resolvePipeline]

/-- Witness for C5 at the sample document, whose `app_data_path` is empty. -/
theorem get_appDataPath_default_cache_witness :
    (resolvePipeline "pd" sampleJoin sampleClean
        false false false "" sampleDoc).AppDataPath =
      sampleJoin "pd" "gorilla/" :=
  (get_appDataPath_default_cache [] (fun _ => .ok sampleDoc) "pd"
    sampleJoin sampleClean false false false "" sampleDoc rfl
    (by decide) (by decide)).2.1 rfl

/-- Claim C6: on the success path the returned `Debug` is the OR of the
file debug and the CLI debug override; the verbose value right after the
verbose-merge step (before the debug adjustment) is the OR of the file
verbose and the CLI verbose override; and a flag the file set to true is
never disabled by a CLI override. -/
theorem get_flag_merge_or (bytes : List UInt8)
    (unmarshal : List UInt8 → Except String Configuration)
    (pd : String) (j : String → String → String) (cl : String → String)
    (v d b : Bool) (i : String) (cfg : Configuration)
    (hun : unmarshal bytes = .ok cfg)
    (hm : cfg.Manifest ≠ "") (hu : cfg.URL ≠ "") :
    (getBody (.ok bytes) unmarshal pd j cl v d b i).result =
      .ok (resolvePipeline pd j cl v d b i cfg)
    ∧ (resolvePipeline pd j cl v d b i cfg).Debug = (cfg.Debug || d)
    ∧ (setVerbosity v (resolveAppDataPath pd j cl
        (backfillURLPackages cfg))).Verbose = (cfg.Verbose || v)
    ∧ (cfg.Verbose = true →
        (resolvePipeline pd j cl v d b i cfg).Verbose = true)
    ∧ (cfg.Debug = true →
        (resolvePipeline pd j cl v d b i cfg).Debug = true)
    ∧ (v = true → (resolvePipeline pd j cl v d b i cfg).Verbose = true)
    ∧ (d = true → (resolvePipeline pd j cl v d b i cfg).Debug = true) := by
  refine ⟨?_, ?_, ?_, ?_, ?_, ?_, ?_⟩
  · exact congrArg GetOutcome.result
      (getBody_ok bytes unmarshal pd j cl v d b i cfg hun hm hu)
  · simp [resolvePipeline]
  · simp
  · intro h; simp [resolvePipeline, h]
  · intro h; simp [resolvePipeline, h]
  · intro h; simp [resolvePipeline, h]
  · intro h; simp [resolvePipeline, h]

/-- Witness for C6: sample document with the CLI verbose override set. -/
theorem get_flag_merge_or_witness :
    (resolvePipeline "pd" sampleJoin sampleClean
        true false false "" sampleDoc).Verbose = true :=
  (get_flag_merge_or [] (fun _ => .ok sampleDoc) "pd"
    sampleJoin sampleClean true false false "" sampleDoc rfl
    (by decide) (by decide)).2.2.2.2.2.1 rfl

/-- Claim C7: the report sink is written exactly once per run, only on
the success path: a file-read failure, a deserialization failure, a
missing manifest or a missing URL leave the write log empty, while a
fully validated run logs exactly the two facts `Manifest` (the resolved
manifest) and `Catalog` (the resolved catalog list), in that order. -/
theorem get_report_writes_only_on_success (e : String) (bytes : List UInt8)
    (unmarshal : List UInt8 → Except String Configuration)
    (pd : String) (j : String → String → String) (cl : String → String)
    (v d b : Bool) (i : String) (cfg : Configuration) :
    (getBody (.error e) unmarshal pd j cl v d b i).reportWrites = []
    ∧ (unmarshal bytes = .error e →
        (getBody (.ok bytes) unmarshal pd j cl v d b i).reportWrites = [])
    ∧ (unmarshal bytes = .ok cfg → cfg.Manifest = "" →
        (getBody (.ok bytes) unmarshal pd j cl v d b i).reportWrites = [])
    ∧ (unmarshal bytes = .ok cfg → cfg.Manifest ≠ "" → cfg.URL = "" →
        (getBody (.ok bytes) unmarshal pd j cl v d b i).reportWrites = [])
    ∧ (unmarshal bytes = .ok cfg → cfg.Manifest ≠ "" → cfg.URL ≠ "" →
        (getBody (.ok bytes) unmarshal pd j cl v d b i).reportWrites =
          [(keyManifest,
            .str (resolvePipeline pd j cl v d b i cfg).Manifest),
           (keyCatalog,
            .strs (resolvePipeline pd j cl v d b i cfg).Catalogs)]
        ∧ (resolvePipeline pd j cl v d b i cfg).Manifest = cfg.Manifest
        ∧ (resolvePipeline pd j cl v d b i cfg).Catalogs = cfg.Catalogs) := by
  refine ⟨rfl, ?_, ?_, ?_, ?_⟩
  · intro h; simp [getBody, h]
  · intro hun h; simp [getBody, hun, h]
  · intro hun hm h; simp [getBody, hun, hm, h]
  · intro hun hm hu
    refine ⟨?_, by simp [resolvePipeline], by simp [resolvePipeline]⟩
    exact congrArg GetOutcome.reportWrites
      (getBody_ok bytes unmarshal pd j cl v d b i cfg hun hm hu)

/-- Witness for C7: the sample run writes exactly the two facts. -/
theorem get_report_writes_only_on_success_witness :
    (getBody (.ok []) (fun _ => .ok sampleDoc) "pd" sampleJoin sampleClean
        false false false "").reportWrites =
      [(keyManifest, .str (resolvePipeline "pd" sampleJoin sampleClean
          false false false "" sampleDoc).Manifest),
       (keyCatalog, .strs (resolvePipeline "pd" sampleJoin sampleClean
          false false false "" sampleDoc).Catalogs)] :=
  ((get_report_writes_only_on_success "" [] (fun _ => .ok sampleDoc) "pd"
    sampleJoin sampleClean false false false "" sampleDoc).2.2.2.2
    rfl (by decide) (by decide)).1

/-- Claim C8: if any of the help, version or about flags is set,
`parseArguments` prints informational text and exits with code 0, and the
end-to-end `Get` reaches that early exit whatever the file system holds —
no configuration file is read or resolved; if none of the three is set,
`parseArguments` returns the config path, verbose and debug values and
`Get` proceeds to the resolver body. -/
theorem parseArguments_terminal_or_passthrough (hp vr ab : Bool)
    (cfgArg : String) (vb db : Bool) :
    ((hp || vr || ab) = true →
      ∃ printed, parseArguments hp vr ab cfgArg vb db = .exit 0 printed
        ∧ ∀ (readFile : String → Except String (List UInt8))
            (unmarshal : List UInt8 → Except String Configuration)
            (pd : String) (j : String → String → String)
            (cl : String → String) (b : Bool) (i : String),
            get hp vr ab cfgArg vb db readFile unmarshal pd j cl b i =
              .earlyExit 0 printed)
    ∧ ((hp || vr || ab) = false →
      parseArguments hp vr ab cfgArg vb db = .ok cfgArg vb db
        ∧ ∀ (readFile : String → Except String (List UInt8))
            (unmarshal : List UInt8 → Except String Configuration)
            (pd : String) (j : String → String → String)
            (cl : String → String) (b : Bool) (i : String),
            get hp vr ab cfgArg vb db readFile unmarshal pd j cl b i =
              .resolved (getBody (readFile cfgArg) unmarshal pd j cl
                vb db b i)) := by
  constructor
  · intro hs
    cases hp with
    | true => exact ⟨[.versionShort, .usageText], rfl,
        fun _ _ _ _ _ _ _ => rfl⟩
    | false =>
      cases vr with
      | true => exact ⟨[.versionShort], rfl, fun _ _ _ _ _ _ _ => rfl⟩
      | false =>
        cases ab with
        | true => exact ⟨[.versionFull], rfl, fun _ _ _ _ _ _ _ => rfl⟩
        | false => simp at hs
  · intro hs
    cases hp with
    | true => simp at hs
    | false =>
      cases vr with
      | true => simp at hs
      | false =>
        cases ab with
        | true => simp at hs
        | false => exact ⟨rfl, fun _ _ _ _ _ _ _ => rfl⟩

/-- Witness for C8 with only the version flag set. -/
theorem parseArguments_terminal_or_passthrough_witness :
    ∃ printed,
      parseArguments false true false "c" false false = .exit 0 printed
      ∧ ∀ (readFile : String → Except String (List UInt8))
          (unmarshal : List UInt8 → Except String Configuration)
          (pd : String) (j : String → String → String)
          (cl : String → String) (b : Bool) (i : String),
          get false true false "c" false false readFile unmarshal pd j cl
            b i = .earlyExit 0 printed :=
  (parseArguments_terminal_or_passthrough false true false "c"
    false false).1 rfl

/-- Claim C9: in the missing-manifest and missing-URL branches the error
value appended to the diagnostic is the `err` left over from the
preceding successful deserialization — nil on those paths — not an error
describing the validation condition. -/
theorem get_validation_diag_nil_err (bytes : List UInt8)
    (unmarshal : List UInt8 → Except String Configuration)
    (pd : String) (j : String → String → String) (cl : String → String)
    (v d b : Bool) (i : String) (cfg : Configuration)
    (hun : unmarshal bytes = .ok cfg) :
    (cfg.Manifest = "" →
      ∃ f, (getBody (.ok bytes) unmarshal pd j cl v d b i).result =
          .error f
        ∧ f.diag.attachedErr = none
        ∧ f.diag.message = msgInvalidManifest)
    ∧ (cfg.Manifest ≠ "" → cfg.URL = "" →
      ∃ f, (getBody (.ok bytes) unmarshal pd j cl v d b i).result =
          .error f
        ∧ f.diag.attachedErr = none
        ∧ f.diag.message = msgInvalidURL) := by
  constructor
  · intro h
    exact ⟨⟨1, ⟨msgInvalidManifest, none⟩⟩,
      by simp [getBody, hun, h], rfl, rfl⟩
  · intro hm h
    exact ⟨⟨1, ⟨msgInvalidURL, none⟩⟩,
      by simp [getBody, hun, hm, h], rfl, rfl⟩

/-- Witness for C9: a document with a manifest but empty URL. -/
theorem get_validation_diag_nil_err_witness :
    ∃ f, (getBody (.ok []) (fun _ =>
          .ok { zeroConfiguration with Manifest := "m" }) "pd"
        sampleJoin sampleClean false false false "").result = .error f
      ∧ f.diag.attachedErr = none
      ∧ f.diag.message = msgInvalidURL :=
  (get_validation_diag_nil_err [] (fun _ =>
      .ok { zeroConfiguration with Manifest := "m" }) "pd"
    sampleJoin sampleClean false false false ""
    { zeroConfiguration with Manifest := "m" } rfl).2 (by decide) rfl

/-- Claim C10: when the file content is empty and deserialization of the
empty input succeeds with the zero-valued document (the behavior of the
YAML library), `Get` exits 1 at the manifest validation step with the
Manifest diagnostic — not at the deserialization step. -/
theorem get_empty_file_manifest_exit
    (unmarshal : List UInt8 → Except String Configuration)
    (pd : String) (j : String → String → String) (cl : String → String)
    (v d b : Bool) (i : String)
    (hempty : unmarshal [] = .ok zeroConfiguration) :
    getBody (.ok []) unmarshal pd j cl v d b i =
      { result := .error ⟨1, ⟨msgInvalidManifest, none⟩⟩
      , reportWrites := [] }
    ∧ mentions msgInvalidManifest keyManifest = true
    ∧ msgInvalidManifest ≠ msgUnableYaml := by
  refine ⟨by simp [getBody, hempty, zeroConfiguration], by decide, by decide⟩

/-- Witness for C10 with a concrete deserializer returning the zero
document on every input. -/
theorem get_empty_file_manifest_exit_witness :
    getBody (.ok []) (fun _ => .ok zeroConfiguration) "pd"
        sampleJoin sampleClean false false false "" =
      { result := .error ⟨1, ⟨msgInvalidManifest, none⟩⟩
      , reportWrites := [] }
    ∧ mentions msgInvalidManifest keyManifest = true
    ∧ msgInvalidManifest ≠ msgUnableYaml :=
  get_empty_file_manifest_exit (fun _ => .ok zeroConfiguration) "pd"
    sampleJoin sampleClean false false false "" rfl

end Gorilla
